import Mathlib

set_option maxRecDepth 16000
set_option maxHeartbeats 2000000

/-!
Shallow embedding of the LINAC downtime-analysis repository.

The repository has four scripts:
  * `linac_failure_classifier.py` — a retry-and-normalize wrapper around an
    external text-generation call (`classify_report`) plus a batch runner
    over a pandas DataFrame (`classify_dataframe`);
  * `report_type1_processing.py`, `report_type2_processing.py`,
    `report_type3_processing.py` — three regex field extractors over PDF
    text plus their batch runners.

External collaborators (the OpenAI transport, pdfplumber/PyMuPDF text
extraction, the filesystem) are modelled as oracles: a transport behaviour
is a function from attempt index to either a raised message or a returned
text, and a document is a (file name, extracted text) pair.  Everything the
scripts themselves compute — string stripping and splitting, fenced-block
handling, JSON parsing (a model of Python's `json.loads`), the regular
expression matching (a model of Python's `re` for the constructs the
patterns use), record assembly — is embedded executably below.
-/

/-! ## Python string primitives -/

/-- The characters Python's `str.strip()` removes (ASCII whitespace). -/
def isPySpaceChar (c : Char) : Bool :=
  c == ' ' || c == '\t' || c == '\n' || c == '\r' || c == '\x0b' || c == '\x0c'

def pyStripL (cs : List Char) : List Char :=
  ((cs.dropWhile isPySpaceChar).reverse.dropWhile isPySpaceChar).reverse

/-- Python `s.strip()`. -/
def pyStrip (s : String) : String :=
  String.mk (pyStripL s.data)

def lPrefix : List Char → List Char → Bool
  | [], _ => true
  | _ :: _, [] => false
  | a :: as, b :: bs => a == b && lPrefix as bs

/-- Python `needle in hay` (substring test, for a nonempty needle). -/
def lContains (needle : List Char) : List Char → Bool
  | [] => lPrefix needle []
  | c :: rest => lPrefix needle (c :: rest) || lContains needle rest

/-- First occurrence of `needle`: the part before it and the part after it. -/
def lFindSplit (needle : List Char) : List Char → Option (List Char × List Char)
  | [] => if lPrefix needle [] then some ([], []) else none
  | c :: rest =>
    if lPrefix needle (c :: rest) then some ([], List.drop needle.length (c :: rest))
    else
      match lFindSplit needle rest with
      | some (pre, post) => some (c :: pre, post)
      | none => none

def pySplitL (needle : List Char) : Nat → List Char → List (List Char)
  | 0, cs => [cs]
  | fuel + 1, cs =>
    match lFindSplit needle cs with
    | some (pre, post) => pre :: pySplitL needle fuel post
    | none => [cs]

/-- Python `s.split(sep)` for a nonempty separator, on character lists. -/
def pySplitC (sep cs : List Char) : List (List Char) :=
  pySplitL sep (cs.length + 1) cs

def partIdx (xs : List (List Char)) (i : Nat) : List Char :=
  xs.getD i []

/-- The fenced-code-block handling of `classify_report` (source lines 136-139):
if the stripped response contains a triple-backtick fence with a `json` tag,
take the text between the tag and the next fence and strip it; else if it
contains a bare fence, take the text between the first and second fence and
strip it; otherwise leave the text as is.  `t` is assumed already stripped
(the source applies this to `response...content.strip()`). -/
def pyFenceExtract (t : String) : String :=
  let cs := t.data
  if lContains ("```json".data) cs then
    String.mk (pyStripL (partIdx (pySplitC ("```".data)
      (partIdx (pySplitC ("```json".data) cs) 1)) 0))
  else if lContains ("```".data) cs then
    String.mk (pyStripL (partIdx (pySplitC ("```".data)
      (partIdx (pySplitC ("```".data) cs) 1)) 0))
  else t

/-- Lookup in an insertion-ordered record (first occurrence of the key). -/
def pyGet {α : Type} (r : List (String × α)) (k : String) : Option α :=
  (r.find? (fun p => p.1 == k)).map Prod.snd

def lIsSuffix (needle hay : List Char) : Bool :=
  lPrefix needle.reverse hay.reverse

/-- Python `name.lower().endswith(".pdf")` (ASCII lowering). -/
def lowerEndsWithPdf (s : String) : Bool :=
  lIsSuffix (".pdf".data) (s.data.map Char.toLower)

/-- Model of `os.path.splitext(...)[0]` for ordinary file names: drop the
last dot and what follows it, if any dot is present. -/
def pySplitextStem (s : String) : String :=
  match s.data.reverse.dropWhile (fun c => c != '.') with
  | [] => s
  | _ :: rest => String.mk rest.reverse

/-! ## A model of Python's `json.loads`

JSON values; numbers keep their source lexeme (none of the scripts inspects
a numeric value, only dict-ness and key membership matter). -/

inductive JValue where
  | jnull
  | jbool (b : Bool)
  | jnum (lexeme : String)
  | jstr (s : String)
  | jarr (xs : List JValue)
  | jobj (kvs : List (String × JValue))

/-- JSON whitespace. -/
def jIsWs (c : Char) : Bool :=
  c == ' ' || c == '\t' || c == '\n' || c == '\r'

def jSkipWs : List Char → List Char
  | [] => []
  | c :: rest => if jIsWs c then jSkipWs rest else c :: rest

def isHexDigitChar (c : Char) : Bool :=
  c.isDigit || ('a' ≤ c && c ≤ 'f') || ('A' ≤ c && c ≤ 'F')

def hexDigitVal (c : Char) : Nat :=
  if c.isDigit then c.toNat - 48
  else if 'a' ≤ c && c ≤ 'f' then c.toNat - 87
  else c.toNat - 55

/-- Body of a JSON string, after the opening quote.  Returns the decoded
characters and the rest after the closing quote. -/
def jStringBody : Nat → List Char → Except String (List Char × List Char)
  | 0, _ => .error "Unterminated string"
  | fuel + 1, cs =>
    match cs with
    | [] => .error "Unterminated string"
    | c :: rest =>
      if c == '"' then .ok ([], rest)
      else if c == '\\' then
        match rest with
        | [] => .error "Unterminated string"
        | e :: rest2 =>
          if e == '"' then (jStringBody fuel rest2).map (fun p => ('"' :: p.1, p.2))
          else if e == '\\' then (jStringBody fuel rest2).map (fun p => ('\\' :: p.1, p.2))
          else if e == '/' then (jStringBody fuel rest2).map (fun p => ('/' :: p.1, p.2))
          else if e == 'b' then (jStringBody fuel rest2).map (fun p => ('\x08' :: p.1, p.2))
          else if e == 'f' then (jStringBody fuel rest2).map (fun p => ('\x0c' :: p.1, p.2))
          else if e == 'n' then (jStringBody fuel rest2).map (fun p => ('\n' :: p.1, p.2))
          else if e == 'r' then (jStringBody fuel rest2).map (fun p => ('\r' :: p.1, p.2))
          else if e == 't' then (jStringBody fuel rest2).map (fun p => ('\t' :: p.1, p.2))
          else if e == 'u' then
            match rest2 with
            | h1 :: h2 :: h3 :: h4 :: rest3 =>
              if isHexDigitChar h1 && isHexDigitChar h2 && isHexDigitChar h3 && isHexDigitChar h4 then
                (jStringBody fuel rest3).map (fun p =>
                  (Char.ofNat (((hexDigitVal h1 * 16 + hexDigitVal h2) * 16
                    + hexDigitVal h3) * 16 + hexDigitVal h4) :: p.1, p.2))
              else .error "Invalid \\uXXXX escape"
            | _ => .error "Invalid \\uXXXX escape"
          else .error "Unrecognized escape"
      else if c.toNat < 32 then .error "Invalid control character"
      else (jStringBody fuel rest).map (fun p => (c :: p.1, p.2))

def takeDigits (cs : List Char) : List Char × List Char :=
  (cs.takeWhile Char.isDigit, cs.dropWhile Char.isDigit)

/-- Optional fraction part of a JSON number (fail-soft, as Python's number
regex simply stops before a malformed fraction). -/
def jNumFrac (cs : List Char) : List Char × List Char :=
  match cs with
  | '.' :: rest =>
    match takeDigits rest with
    | ([], _) => ([], cs)
    | (ds, rest2) => ('.' :: ds, rest2)
  | _ => ([], cs)

/-- Optional exponent part of a JSON number (fail-soft). -/
def jNumExp (cs : List Char) : List Char × List Char :=
  match cs with
  | c :: rest =>
    if c == 'e' || c == 'E' then
      match rest with
      | s :: r2 =>
        if s == '+' || s == '-' then
          match takeDigits r2 with
          | ([], _) => ([], cs)
          | (ds, r3) => (c :: s :: ds, r3)
        else
          match takeDigits rest with
          | ([], _) => ([], cs)
          | (ds, r3) => (c :: ds, r3)
      | [] => ([], cs)
    else ([], cs)
  | [] => ([], cs)

/-- A JSON number starting at `cs` (grammar `-?(0|[1-9][0-9]*)(frac)?(exp)?`);
returns the lexeme and the rest. -/
def jNumber (cs : List Char) : Except String (List Char × List Char) :=
  let p : List Char × List Char :=
    match cs with
    | '-' :: r => (['-'], r)
    | _ => ([], cs)
  match p.2 with
  | '0' :: rest =>
    let f := jNumFrac rest
    let e := jNumExp f.2
    .ok (p.1 ++ '0' :: (f.1 ++ e.1), e.2)
  | c :: rest =>
    if c.isDigit then
      let d := takeDigits (c :: rest)
      let f := jNumFrac d.2
      let e := jNumExp f.2
      .ok (p.1 ++ d.1 ++ f.1 ++ e.1, e.2)
    else .error "Expecting value"
  | [] => .error "Expecting value"

def jExpectLit (lit : List Char) (cs : List Char) : Option (List Char) :=
  if lPrefix lit cs then some (List.drop lit.length cs) else none

mutual

/-- One JSON value starting at `cs0` (leading whitespace allowed). -/
def jRead (fuel : Nat) (cs0 : List Char) : Except String (JValue × List Char) :=
  match fuel with
  | 0 => .error "Too deeply nested"
  | fuel' + 1 =>
    let cs := jSkipWs cs0
    match cs with
    | [] => .error "Expecting value"
    | c :: rest =>
      if c == '\x7b' then jReadObjItems fuel' [] (jSkipWs rest)
      else if c == '[' then jReadArrItems fuel' [] (jSkipWs rest)
      else if c == '"' then
        match jStringBody (rest.length + 1) rest with
        | .ok (body, r2) => .ok (.jstr (String.mk body), r2)
        | .error e => .error e
      else if c == 't' then
        match jExpectLit ("rue".data) rest with
        | some r2 => .ok (.jbool true, r2)
        | none => .error "Expecting value"
      else if c == 'f' then
        match jExpectLit ("alse".data) rest with
        | some r2 => .ok (.jbool false, r2)
        | none => .error "Expecting value"
      else if c == 'n' then
        match jExpectLit ("ull".data) rest with
        | some r2 => .ok (.jnull, r2)
        | none => .error "Expecting value"
      else if c == '-' || c.isDigit then
        match jNumber cs with
        | .ok (lex, r2) => .ok (.jnum (String.mk lex), r2)
        | .error e => .error e
      else .error "Expecting value"

/-- Members of a JSON object, called just after `{` or after a comma. -/
def jReadObjItems (fuel : Nat) (acc : List (String × JValue)) (cs : List Char) :
    Except String (JValue × List Char) :=
  match fuel with
  | 0 => .error "Too deeply nested"
  | fuel' + 1 =>
    match cs with
    | '\x7d' :: rest =>
      if acc.isEmpty then .ok (.jobj [], rest)
      else .error "Expecting property name enclosed in double quotes"
    | '"' :: rest =>
      match jStringBody (rest.length + 1) rest with
      | .error e => .error e
      | .ok (key, r2) =>
        match jSkipWs r2 with
        | ':' :: r3 =>
          match jRead fuel' r3 with
          | .error e => .error e
          | .ok (v, r4) =>
            match jSkipWs r4 with
            | ',' :: r5 => jReadObjItems fuel' (acc ++ [(String.mk key, v)]) (jSkipWs r5)
            | '\x7d' :: r5 => .ok (.jobj (acc ++ [(String.mk key, v)]), r5)
            | _ => .error "Expecting ',' delimiter"
        | _ => .error "Expecting ':' delimiter"
    | _ => .error "Expecting property name enclosed in double quotes"

/-- Elements of a JSON array, called just after `[` or after a comma. -/
def jReadArrItems (fuel : Nat) (acc : List JValue) (cs : List Char) :
    Except String (JValue × List Char) :=
  match fuel with
  | 0 => .error "Too deeply nested"
  | fuel' + 1 =>
    match cs with
    | ']' :: rest =>
      if acc.isEmpty then .ok (.jarr [], rest)
      else .error "Expecting value"
    | _ =>
      match jRead fuel' cs with
      | .error e => .error e
      | .ok (v, r2) =>
        match jSkipWs r2 with
        | ',' :: r3 => jReadArrItems fuel' (acc ++ [v]) (jSkipWs r3)
        | ']' :: r3 => .ok (.jarr (acc ++ [v]), r3)
        | _ => .error "Expecting ',' delimiter"

end

/-- Model of Python's `json.loads`: one JSON document, whole input consumed
up to trailing whitespace.  Failures are Python's `json.JSONDecodeError`. -/
def json_loads (s : String) : Except String JValue :=
  match jRead (2 * s.data.length + 8) s.data with
  | .error e => .error e
  | .ok (v, rest) =>
    if (jSkipWs rest).isEmpty then .ok v else .error "Extra data"

def isOkE (x : Except String JValue) : Bool :=
  match x with
  | .ok _ => true
  | .error _ => false

/-- The `str(e)` message of the decode failure of `s` (empty if `s` parses). -/
def jsonErrOf (s : String) : String :=
  match json_loads s with
  | .error e => e
  | .ok _ => ""

/-- Python `dict.get` on an object built by `json.loads` from an ordered
pair list: a later duplicate key overwrites an earlier one, so the last
occurrence wins. -/
def pyDictGet (kvs : List (String × JValue)) (k : String) : Option JValue :=
  (kvs.reverse.find? (fun p => p.1 == k)).map Prod.snd

def jIsStr (v : JValue) : Bool :=
  match v with
  | .jstr _ => true
  | _ => false

def jIsDict (v : JValue) : Bool :=
  match v with
  | .jobj _ => true
  | _ => false

/-- "is a mapping containing key `failure_type` whose value is a string". -/
def hasStringFailureType (v : JValue) : Bool :=
  match v with
  | .jobj kvs =>
    match pyDictGet kvs "failure_type" with
    | some w => jIsStr w
    | none => false
  | _ => false

/-! ## The classification client (`LINACFailureClassifier.classify_report`)

The external call `self.client.chat.completions.create(...)` is an oracle:
per attempt it either raises (with a message, Python's `str(e)`) or returns
the response text `response.choices[0].message.content`.  The prompt built
from the subject/description and the few-shot block only parameterizes that
external call, so theorems quantify over every transport behaviour, which
covers every subject/description pair. -/

inductive TransportResult where
  | raises (msg : String)
  | returns (text : String)

/-- Which exit of the attempt loop produced the result. -/
inductive Origin where
  | parsed
  | parseError
  | apiError
  | fellThrough
deriving DecidableEq

/-- Result of `classify_report`, instrumented with the number of transport
invocations and the loop exit that produced it. -/
structure ClassifyOut where
  result : JValue
  calls : Nat
  origin : Origin

def apiErrorDict (msg : String) : JValue :=
  .jobj [("failure_type", .jstr "APIError"), ("error", .jstr msg)]

def parseErrorDict (raw err : String) : JValue :=
  .jobj [("failure_type", .jstr "ParseError"), ("raw_response", .jstr raw),
         ("error", .jstr err)]

def unknownErrorDict : JValue :=
  .jobj [("failure_type", .jstr "UnknownError")]

/-- The `for attempt in range(max_retries)` loop of `classify_report`
(source lines 121-154), iterated on the number of remaining iterations:
`remaining + 1` iterations left means the current `attempt` is
`max_retries - (remaining + 1)`, and `remaining = 0` is the source's
`attempt == max_retries - 1` (the final attempt).  Per iteration: invoke
the transport; on a raised error return the APIError mapping if this is the
final attempt, else retry; on returned text, strip it, apply the fence
handling, parse with `json_loads`, return the parsed value on success, and
on parse failure return the ParseError mapping if final, else retry.
Falling out of the loop (zero iterations) yields the UnknownError
mapping. -/
def classifyFrom (tr : Nat → TransportResult) (max_retries : Nat) :
    Nat → Nat → ClassifyOut
  | 0, calls => ⟨unknownErrorDict, calls, .fellThrough⟩
  | remaining + 1, calls =>
    match tr (max_retries - (remaining + 1)) with
    | .raises msg =>
      if remaining = 0 then ⟨apiErrorDict msg, calls + 1, .apiError⟩
      else classifyFrom tr max_retries remaining (calls + 1)
    | .returns raw =>
      let result_text := pyFenceExtract (pyStrip raw)
      match json_loads result_text with
      | .ok v => ⟨v, calls + 1, .parsed⟩
      | .error e =>
        if remaining = 0 then ⟨parseErrorDict result_text e, calls + 1, .parseError⟩
        else classifyFrom tr max_retries remaining (calls + 1)

/-- `classify_report` instrumented (starts the loop with `max_retries`
iterations left and zero transport calls made). -/
def classifyRun (tr : Nat → TransportResult) (max_retries : Nat) : ClassifyOut :=
  classifyFrom tr max_retries max_retries 0

/-- `LINACFailureClassifier.classify_report`: the returned value. -/
def classify_report (tr : Nat → TransportResult) (max_retries : Nat) : JValue :=
  (classifyRun tr max_retries).result

/-! ## The classification batch runner (`classify_dataframe`)

A DataFrame is modelled as its columns in order: name and cell list.  The
per-row transport behaviour is an oracle `tr : row index → attempt →
TransportResult` (the row's subject/description feed only the external
request).  Pandas column assignment `df[name] = vals` overwrites the column
in place when the name exists and appends it otherwise. -/

abbrev DataFrame : Type := List (String × List JValue)

def dfNumRows (df : DataFrame) : Nat :=
  match df with
  | [] => 0
  | c :: _ => c.2.length

def dfHasCol (df : DataFrame) (name : String) : Bool :=
  df.any (fun c => c.1 == name)

def dfSetCol (df : DataFrame) (name : String) (vals : List JValue) : DataFrame :=
  if dfHasCol df name then
    df.map (fun c => if c.1 == name then (name, vals) else c)
  else df ++ [(name, vals)]

def dfGetCol (df : DataFrame) (name : String) : Option (List JValue) :=
  (List.find? (fun c => c.1 == name) df).map Prod.snd

def dfNumCols (df : DataFrame) : Nat :=
  List.length df

/-- `x.get('failure_type', 'Error') if isinstance(x, dict) else 'Error'`
(source lines 184-186). -/
def derive_failure_type (x : JValue) : JValue :=
  match x with
  | .jobj kvs =>
    match pyDictGet kvs "failure_type" with
    | some v => v
    | none => .jstr "Error"
  | _ => .jstr "Error"

/-- The raw classification column: `classify_report` applied to every row
(default `max_retries = 3`). -/
def classifyResults (tr : Nat → Nat → TransportResult) (df : DataFrame) :
    List JValue :=
  (List.range (dfNumRows df)).map (fun i => classify_report (tr i) 3)

set_option linter.unusedVariables false in
/-- `LINACFailureClassifier.classify_dataframe` (source lines 156-189): set
the output column to the per-row classification results, then set the
`failure_type` column to the extracted labels, and return the table.
`subject_col`/`description_col` name the columns whose values feed the
external request (absorbed into `tr`). -/
def classify_dataframe (tr : Nat → Nat → TransportResult) (df : DataFrame)
    (subject_col description_col output_col : String) : DataFrame :=
  let results := classifyResults tr df
  let df1 := dfSetCol df output_col results
  dfSetCol df1 "failure_type" (results.map derive_failure_type)

/-! ## A model of Python's `re` for the extractor patterns

The three extractor scripts use: literal characters, the classes `\d`,
`\s`, `\S`, `.` (with and without `re.DOTALL`), bracket classes (single
characters, ranges, negation), the quantifiers `*`, `+`, `?`, bounded
repetition, lazy variants, capturing groups, non-capturing alternation,
`re.search` (leftmost match, backtracking priority) and `re.findall`
(non-overlapping matches left to right).  The engine below implements
exactly these, by a fuelled backtracking matcher in continuation style;
the fuel bounds only the call depth, which is linear in the input for the
patterns at hand, so the generous bound below never cuts a search short. -/

inductive CItem where
  | ch (c : Char)
  | range (lo hi : Char)
  | digit
  | space
  | nonNewline
  | anyChar
deriving DecidableEq

def CItem.test : CItem → Char → Bool
  | .ch a, c => c == a
  | .range lo hi, c => lo ≤ c && c ≤ hi
  | .digit, c => c.isDigit
  | .space, c => isPySpaceChar c
  | .nonNewline, c => c != '\n'
  | .anyChar, _ => true

structure CCls where
  items : List CItem
  negated : Bool
deriving DecidableEq

def CCls.test (k : CCls) (c : Char) : Bool :=
  let hit := k.items.any (fun it => it.test c)
  if k.negated then !hit else hit

inductive Regex where
  | eps
  | cls (k : CCls)
  | cat (a b : Regex)
  | alt (a b : Regex)
  | rep (r : Regex) (lo : Nat) (hi : Option Nat) (greedy : Bool)
  | grp (idx : Nat) (r : Regex)

/-- Captures: group index paired with captured text, in capture order
(a group captured again overwrites, so the last entry for an index wins). -/
abbrev Caps := List (Nat × String)

def capGet (caps : Caps) (i : Nat) : String :=
  ((caps.reverse.find? (fun p => p.1 == i)).map Prod.snd).getD ""

/-- Backtracking matcher in continuation style.  `mtch fuel r cs caps k`
tries to match `r` at the start of `cs`; on each way of matching it calls
`k` with the rest and the captures, in the priority order Python's engine
uses (greedy: longer first; lazy: shorter first; `alt`: left first); the
first alternative whose continuation succeeds wins.  A repetition whose
body matched the empty string stops iterating.  Fuel bounds the call
depth. -/
def mtch : Nat → Regex → List Char → Caps →
    (List Char → Caps → Option (List Char × Caps)) → Option (List Char × Caps)
  | 0, _, _, _, _ => none
  | fuel + 1, r, cs, caps, k =>
    match r with
    | .eps => k cs caps
    | .cls kc =>
      match cs with
      | [] => none
      | c :: rest => if kc.test c then k rest caps else none
    | .cat a b => mtch fuel a cs caps (fun cs1 c1 => mtch fuel b cs1 c1 k)
    | .alt a b =>
      match mtch fuel a cs caps k with
      | some res => some res
      | none => mtch fuel b cs caps k
    | .grp i r1 =>
      mtch fuel r1 cs caps (fun cs1 c1 =>
        k cs1 (c1 ++ [(i, String.mk (cs.take (cs.length - cs1.length)))]))
    | .rep r1 lo hi g =>
      match hi with
      | some 0 => k cs caps
      | _ =>
        let hi1 := hi.map (fun m => m - 1)
        if 0 < lo then
          mtch fuel r1 cs caps (fun cs1 c1 =>
            mtch fuel (.rep r1 (lo - 1) hi1 g) cs1 c1 k)
        else if g then
          match mtch fuel r1 cs caps (fun cs1 c1 =>
              if cs1.length == cs.length then k cs1 c1
              else mtch fuel (.rep r1 0 hi1 g) cs1 c1 k) with
          | some res => some res
          | none => k cs caps
        else
          match k cs caps with
          | some res => some res
          | none =>
            mtch fuel r1 cs caps (fun cs1 c1 =>
              if cs1.length == cs.length then k cs1 c1
              else mtch fuel (.rep r1 0 hi1 g) cs1 c1 k)

/-- Match `r` at the start of `cs`; on success return the rest of the input
and the captures. -/
def matchAt (r : Regex) (cs : List Char) : Option (List Char × Caps) :=
  mtch (8 * cs.length + 800) r cs [] (fun rest caps => some (rest, caps))

/-- `re.search`: try each start position left to right; on success return
the captures and the input remaining after the match. -/
def searchIn (r : Regex) : List Char → Option (Caps × List Char)
  | [] =>
    match matchAt r [] with
    | some (rest, caps) => some (caps, rest)
    | none => none
  | c :: rest =>
    match matchAt r (c :: rest) with
    | some (rest', caps) => some (caps, rest')
    | none => searchIn r rest

def reSearch (r : Regex) (s : String) : Option Caps :=
  (searchIn r s.data).map Prod.fst

/-- `re.findall`: repeated `searchIn`, continuing after each match (and
advancing one character if a match consumed nothing, as Python does for an
empty match). -/
def findallFrom (r : Regex) : Nat → List Char → List Caps
  | 0, _ => []
  | fuel + 1, cs =>
    match searchIn r cs with
    | none => []
    | some (caps, rest) =>
      if rest.length == cs.length then
        caps :: (match rest with
          | [] => []
          | _ :: rest' => findallFrom r fuel rest')
      else caps :: findallFrom r fuel rest

def reFindall (r : Regex) (s : String) : List Caps :=
  findallFrom r (s.data.length + 1) s.data

/-! Pattern constructors (hand-compiled abstract syntax for the source's
pattern strings). -/

def rch (c : Char) : Regex := .cls ⟨[.ch c], false⟩

/-- A literal string pattern. -/
def rstr (s : String) : Regex :=
  s.data.foldr (fun c acc => .cat (rch c) acc) .eps

def rcat (rs : List Regex) : Regex := rs.foldr .cat .eps

def rdig : Regex := .cls ⟨[.digit], false⟩
def rsp : Regex := .cls ⟨[.space], false⟩
def rnsp : Regex := .cls ⟨[.space], true⟩
def rdotNl : Regex := .cls ⟨[.nonNewline], false⟩
def rdotAll : Regex := .cls ⟨[.anyChar], false⟩
def rcls (its : List CItem) : Regex := .cls ⟨its, false⟩
def rncls (its : List CItem) : Regex := .cls ⟨its, true⟩
def rplus (r : Regex) : Regex := .rep r 1 none true
def rplusL (r : Regex) : Regex := .rep r 1 none false
def rstar (r : Regex) : Regex := .rep r 0 none true
def rstarL (r : Regex) : Regex := .rep r 0 none false
def ropt (r : Regex) : Regex := .rep r 0 (some 1) true
def rbdd (r : Regex) (lo hi : Nat) : Regex := .rep r lo (some hi) true
def rexactly (r : Regex) (n : Nat) : Regex := .rep r n (some n) true

/-- The class `[\s\S]` (matches every character). -/
def rAnyClass : Regex := rcls [.anyChar]

/-- An input document: the file name (`os.path.basename` of the path) and
the text the external PDF library extracts from it. -/
structure Doc where
  name : String
  text : String

/-! ## `report_type1_processing.py` -/

namespace RT1

/-- `r"Work Order\s+WO-(\d+)"` -/
def p_work_order : Regex :=
  rcat [rstr "Work Order", rplus rsp, rstr "WO-", .grp 1 (rplus rdig)]

/-- `r"Asset\s+(\S+)"` -/
def p_machine_id : Regex :=
  rcat [rstr "Asset", rplus rsp, .grp 1 (rplus rnsp)]

/-- `r"Subject\s+(.+)"` (no DOTALL, so `.` stops at a newline) -/
def p_subject : Regex :=
  rcat [rstr "Subject", rplus rsp, .grp 1 (rplus rdotNl)]

/-- `r"Closure Summary\s+([\s\S]+?)\nWork Order Times"` -/
def p_description : Regex :=
  rcat [rstr "Closure Summary", rplus rsp, .grp 1 (rplusL rAnyClass),
        rstr "\nWork Order Times"]

/-- The group `([\d/]+ [\d:]+ [APM]+)` shared by the four timestamp fields. -/
def dtGroup : Regex :=
  rcat [rplus (rcls [.digit, .ch '/']), rch ' ',
        rplus (rcls [.digit, .ch ':']), rch ' ',
        rplus (rcls [.ch 'A', .ch 'P', .ch 'M'])]

/-- `r"Malfunction Start\s*:\s*([\d/]+ [\d:]+ [APM]+)"` -/
def p_malfunction_start : Regex :=
  rcat [rstr "Malfunction Start", rstar rsp, rch ':', rstar rsp, .grp 1 dtGroup]

/-- `r"Machine Release\s*([\d/]+ [\d:]+ [APM]+)"` -/
def p_machine_release : Regex :=
  rcat [rstr "Machine Release", rstar rsp, .grp 1 dtGroup]

/-- `r"Time In\s*([\d/]+ [\d:]+ [APM]+)"` -/
def p_time_in : Regex :=
  rcat [rstr "Time In", rstar rsp, .grp 1 dtGroup]

/-- `r"Time Out\s*([\d/]+ [\d:]+ [APM]+)"` -/
def p_time_out : Regex :=
  rcat [rstr "Time Out", rstar rsp, .grp 1 dtGroup]

/-- The group `(\d+\.?\d*)` shared by the four hour fields. -/
def hoursGroup : Regex :=
  rcat [rplus rdig, ropt (rch '.'), rstar rdig]

/-- `r"Agreed Downtime\s*(\d+\.?\d*)"` -/
def p_down_time_hours : Regex :=
  rcat [rstr "Agreed Downtime", rstar rsp, .grp 1 hoursGroup]

/-- `r"Site Hours\s*(\d+\.?\d*)"` -/
def p_site_hours : Regex :=
  rcat [rstr "Site Hours", rstar rsp, .grp 1 hoursGroup]

/-- `r"Travel Hours\s*(\d+\.?\d*)"` -/
def p_travel_hours : Regex :=
  rcat [rstr "Travel Hours", rstar rsp, .grp 1 hoursGroup]

/-- `r"Total Work Hours\s*(\d+\.?\d*)"` -/
def p_total_work_hours : Regex :=
  rcat [rstr "Total Work Hours", rstar rsp, .grp 1 hoursGroup]

/-- The twelve `re.search` results, in the dict insertion order of
`extract_data_from_pdf` (source lines 15-26). -/
def searchResults (text : String) : List (String × Option Caps) :=
  [("work_order_id", reSearch p_work_order text),
   ("machine_id", reSearch p_machine_id text),
   ("subject", reSearch p_subject text),
   ("description", reSearch p_description text),
   ("malfunction_start", reSearch p_malfunction_start text),
   ("machine_release", reSearch p_machine_release text),
   ("time_in", reSearch p_time_in text),
   ("time_out", reSearch p_time_out text),
   ("down_time_hours", reSearch p_down_time_hours text),
   ("site_hours", reSearch p_site_hours text),
   ("travel_hours", reSearch p_travel_hours text),
   ("total_work_hours", reSearch p_total_work_hours text)]

/-- `extract_data_from_pdf` (source lines 7-40), applied to the text the
PDF library extracted: per field, a match yields the stripped group (the
work order id re-prefixed with `WO-`), a non-match yields `None`; then the
static `report_source` field is added. -/
def extract_data_from_pdf (text : String) : List (String × Option String) :=
  (searchResults text).map (fun kv =>
    (kv.1,
      match kv.2 with
      | some m =>
        if kv.1 == "work_order_id" then some ("WO-" ++ pyStrip (capGet m 1))
        else some (pyStrip (capGet m 1))
      | none => none))
  ++ [("report_source", some "varian")]

/-- `process_multiple_pdfs` (source lines 42-53): one record per input
file, in input order, with the file's name stored under `file_name`. -/
def process_multiple_pdfs (docs : List Doc) : List (List (String × Option String)) :=
  docs.map (fun d => extract_data_from_pdf d.text ++ [("file_name", some d.name)])

end RT1

/-! ## `report_type2_processing.py` -/

namespace RT2

/-- `r"(\d{1,2}/\d{1,2}/\d{4})\s+(\d{1,2}:\d{2}\s+[AP]M)\s+(\d{1,2}:\d{2}\s+[AP]M)"` -/
def dateGroup : Regex :=
  rcat [rbdd rdig 1 2, rch '/', rbdd rdig 1 2, rch '/', rexactly rdig 4]

def timeAPGroup : Regex :=
  rcat [rbdd rdig 1 2, rch ':', rexactly rdig 2, rplus rsp,
        rcls [.ch 'A', .ch 'P'], rch 'M']

def p_table : Regex :=
  rcat [.grp 1 dateGroup, rplus rsp, .grp 2 timeAPGroup, rplus rsp, .grp 3 timeAPGroup]

/-- `r"Notification No\.\s+(\d+)"` -/
def p_work_order : Regex :=
  rcat [rstr "Notification No.", rplus rsp, .grp 1 (rplus rdig)]

/-- `r"Equipment ID\s+Equipment Name\s+([A-Z0-9]+)"` -/
def p_machine_id : Regex :=
  rcat [rstr "Equipment ID", rplus rsp, rstr "Equipment Name", rplus rsp,
        .grp 1 (rplus (rcls [.range 'A' 'Z', .range '0' '9']))]

/-- `r"Reason for Call\s+([^\n]+)"` -/
def p_subject : Regex :=
  rcat [rstr "Reason for Call", rplus rsp, .grp 1 (rplus (rncls [.ch '\n']))]

/-- `r"Corrective Action Comments(.*?)Times on site"` with `re.DOTALL` -/
def p_description : Regex :=
  rcat [rstr "Corrective Action Comments", .grp 1 (rstarL rdotAll),
        rstr "Times on site"]

/-- `r"Event Date\s+([\d/]+\s+\d+:\d+:\d+\s+[AP]M?)"` -/
def p_malfunction_start : Regex :=
  rcat [rstr "Event Date", rplus rsp,
        .grp 1 (rcat [rplus (rcls [.digit, .ch '/']), rplus rsp,
                      rplus rdig, rch ':', rplus rdig, rch ':', rplus rdig,
                      rplus rsp, rcls [.ch 'A', .ch 'P'], ropt (rch 'M')])]

/-- `r"Equipment Released\s+Customer Signature\s+(\d{1,2}/\d{1,2}/\d{4}\s+\d{1,2}:\d{2}\s+[AP]M)"` -/
def p_machine_release : Regex :=
  rcat [rstr "Equipment Released", rplus rsp, rstr "Customer Signature", rplus rsp,
        .grp 1 (rcat [rbdd rdig 1 2, rch '/', rbdd rdig 1 2, rch '/', rexactly rdig 4,
                      rplus rsp, rbdd rdig 1 2, rch ':', rexactly rdig 2,
                      rplus rsp, rcls [.ch 'A', .ch 'P'], rch 'M'])]

/-- `r"Total [^\n]*?\s+([\d.]+)\s+([\d.]+)\s+([\d.]+)"` -/
def p_hours : Regex :=
  rcat [rstr "Total ", rstarL (rncls [.ch '\n']), rplus rsp,
        .grp 1 (rplus (rcls [.digit, .ch '.'])), rplus rsp,
        .grp 2 (rplus (rcls [.digit, .ch '.'])), rplus rsp,
        .grp 3 (rplus (rcls [.digit, .ch '.']))]

/-- The inner `find` helper (source lines 12-14): stripped first group on a
match, the fallback (always `""` at the call sites) otherwise. -/
def find (text : String) (r : Regex) (fallback : String) : String :=
  match reSearch r text with
  | some m => pyStrip (capGet m 1)
  | none => fallback

/-- `extract_report_data` (source lines 7-53), applied to the file's name
and its extracted text. -/
def extract_report_data (file_name text : String) : List (String × String) :=
  let filename := pySplitextStem file_name
  let time_entries := reFindall p_table text
  let time_in :=
    match time_entries with
    | [] => ""
    | e :: _ => capGet e 1 ++ " " ++ capGet e 2
  let time_out :=
    match time_entries.getLast? with
    | none => ""
    | some e => capGet e 1 ++ " " ++ capGet e 3
  let work_order_id := find text p_work_order ""
  let machine_id := find text p_machine_id ""
  let subject := find text p_subject ""
  let description := pyStrip (find text p_description "")
  let malfunction_start := find text p_malfunction_start ""
  let machine_release := find text p_machine_release ""
  let hours :=
    match reSearch p_hours text with
    | some m => (capGet m 1, capGet m 2, capGet m 3)
    | none => ("", "", "")
  [("work_order_id", work_order_id),
   ("machine_id", machine_id),
   ("subject", subject),
   ("description", description),
   ("malfunction_start", malfunction_start),
   ("machine_release", machine_release),
   ("time_in", time_in),
   ("time_out", time_out),
   ("down_time_hours", ""),
   ("site_hours", hours.2.2),
   ("travel_hours", hours.1),
   ("total_work_hours", hours.2.1),
   ("report_source", "varian"),
   ("file_name", filename)]

/-- `extract_from_folder` (source lines 55-64): the folder is the list of
its entries; files whose lowercased name ends in `.pdf` are processed in
listing order. -/
def extract_from_folder (files : List Doc) : List (List (String × String)) :=
  (files.filter (fun f => lowerEndsWithPdf f.name)).map
    (fun f => extract_report_data f.name f.text)

end RT2

/-! ## `report_type3_processing.py` -/

namespace RT3

/-- The timestamp group `(\d{2}/\d{2}/\d{4} \d{2}:\d{2})`. -/
def tsGroup : Regex :=
  rcat [rexactly rdig 2, rch '/', rexactly rdig 2, rch '/', rexactly rdig 4,
        rch ' ', rexactly rdig 2, rch ':', rexactly rdig 2]

/-- `r"Time In\s+Time Out\s+Malfunction Start\s+Machine Release Time\s+(..)\s+(..)\s+(..)\s+(..)"`
with the four timestamp groups (source lines 19-24). -/
def p_times : Regex :=
  rcat [rstr "Time In", rplus rsp, rstr "Time Out", rplus rsp,
        rstr "Malfunction Start", rplus rsp, rstr "Machine Release Time", rplus rsp,
        .grp 1 tsGroup, rplus rsp, .grp 2 tsGroup, rplus rsp,
        .grp 3 tsGroup, rplus rsp, .grp 4 tsGroup]

/-- `r"Work Order Number\s+(WO-\d+)"` -/
def p_work_order : Regex :=
  rcat [rstr "Work Order Number", rplus rsp, .grp 1 (rcat [rstr "WO-", rplus rdig])]

/-- `r"Installed Product\s+([A-Z0-9]+)"` -/
def p_machine_id : Regex :=
  rcat [rstr "Installed Product", rplus rsp,
        .grp 1 (rplus (rcls [.range 'A' 'Z', .range '0' '9']))]

/-- `r"Problem Description\s+(.+?)(?:\n|Work Performed Comments)"` with `re.DOTALL` -/
def p_subject : Regex :=
  rcat [rstr "Problem Description", rplus rsp, .grp 1 (rplusL rdotAll),
        .alt (rch '\n') (rstr "Work Performed Comments")]

/-- `r"Work Performed Comments\s+(.+?)(?:\nFollow Up Comments|\n\n)"` with `re.DOTALL` -/
def p_description : Regex :=
  rcat [rstr "Work Performed Comments", rplus rsp, .grp 1 (rplusL rdotAll),
        .alt (rstr "\nFollow Up Comments") (rstr "\n\n")]

/-- `r"Total Travel Hours\s+Total Work Hours\s+Total Site Hours\s+Agreed Downtime\s*\n([0-9.]+)\s+([0-9.]+)\s+([0-9.]+)"` -/
def p_hours : Regex :=
  rcat [rstr "Total Travel Hours", rplus rsp, rstr "Total Work Hours", rplus rsp,
        rstr "Total Site Hours", rplus rsp, rstr "Agreed Downtime", rstar rsp, rch '\n',
        .grp 1 (rplus (rcls [.range '0' '9', .ch '.'])), rplus rsp,
        .grp 2 (rplus (rcls [.range '0' '9', .ch '.'])), rplus rsp,
        .grp 3 (rplus (rcls [.range '0' '9', .ch '.']))]

/-- The inner `find` helper (source lines 13-15). -/
def find (text : String) (r : Regex) (fallback : String) : String :=
  match reSearch r text with
  | some m => pyStrip (capGet m 1)
  | none => fallback

/-- `extract_report_data` (source lines 6-57), applied to the file's name
and its extracted text. -/
def extract_report_data (file_name text : String) : List (String × String) :=
  let filename := pySplitextStem file_name
  let times :=
    match reSearch p_times text with
    | some m => (capGet m 1, capGet m 2, capGet m 3, capGet m 4)
    | none => ("", "", "", "")
  let work_order_id := find text p_work_order ""
  let machine_id := find text p_machine_id ""
  let subject := find text p_subject ""
  let description := find text p_description ""
  let hours :=
    match reSearch p_hours text with
    | some m => (capGet m 1, capGet m 2, capGet m 3)
    | none => ("", "", "")
  [("work_order_id", work_order_id),
   ("machine_id", machine_id),
   ("subject", subject),
   ("description", description),
   ("malfunction_start", times.2.2.1),
   ("machine_release", times.2.2.2),
   ("time_in", times.1),
   ("time_out", times.2.1),
   ("down_time_hours", ""),
   ("site_hours", hours.2.2),
   ("travel_hours", hours.1),
   ("total_work_hours", hours.2.1),
   ("report_source", "varian"),
   ("file_name", filename)]

/-- `extract_from_folder` (source lines 59-63). -/
def extract_from_folder (files : List Doc) : List (List (String × String)) :=
  (files.filter (fun f => lowerEndsWithPdf f.name)).map
    (fun f => extract_report_data f.name f.text)

end RT3

/-- The fixed column set every extractor variant produces (identical order
in all three: twelve pattern fields, then `report_source`, then
`file_name`). -/
def report_columns : List String :=
  ["work_order_id", "machine_id", "subject", "description",
   "malfunction_start", "machine_release", "time_in", "time_out",
   "down_time_hours", "site_hours", "travel_hours", "total_work_hours",
   "report_source", "file_name"]

/-! ## Helper lemmas about the classification loop -/

theorem hasStringFailureType_api (msg : String) :
    hasStringFailureType (apiErrorDict msg) = true := rfl

theorem hasStringFailureType_parse (raw err : String) :
    hasStringFailureType (parseErrorDict raw err) = true := rfl

theorem hasStringFailureType_unknown :
    hasStringFailureType unknownErrorDict = true := rfl

/-- Every exit of the attempt loop except a successful parse yields a
mapping whose `failure_type` value is a string. -/
theorem classifyFrom_parsed_or_string (tr : Nat → TransportResult) (n : Nat) :
    ∀ r calls, (classifyFrom tr n r calls).origin = Origin.parsed ∨
      hasStringFailureType (classifyFrom tr n r calls).result = true := by
  intro r
  induction r with
  | zero => intro calls; exact Or.inr hasStringFailureType_unknown
  | succ r ih =>
    intro calls
    cases htr : tr (n - (r + 1)) with
    | raises msg =>
      by_cases hr : r = 0
      · subst hr
        simp only [classifyFrom, htr, if_pos rfl]
        exact Or.inr (hasStringFailureType_api msg)
      · simp only [classifyFrom, htr, if_neg hr]
        exact ih (calls + 1)
    | returns raw =>
      cases hj : json_loads (pyFenceExtract (pyStrip raw)) with
      | ok v =>
        simp [classifyFrom, htr, hj]
      | error e =>
        by_cases hr : r = 0
        · subst hr
          simp only [classifyFrom, htr, hj, if_pos rfl]
          exact Or.inr (hasStringFailureType_parse _ e)
        · simp only [classifyFrom, htr, hj, if_neg hr]
          exact ih (calls + 1)

/-- If the transport raises `msgs i` on each attempt `i`, every nonempty
tail of the loop ends with the APIError mapping of the final attempt's
message, having invoked the transport once per remaining iteration. -/
theorem classifyFrom_all_raises (msgs : Nat → String) (n : Nat) :
    ∀ r calls, 0 < r →
      classifyFrom (fun i => TransportResult.raises (msgs i)) n r calls =
        ⟨apiErrorDict (msgs (n - 1)), calls + r, Origin.apiError⟩ := by
  intro r
  induction r with
  | zero => intro calls h; exact absurd h (by omega)
  | succ r ih =>
    intro calls _
    simp only [classifyFrom]
    by_cases hr : r = 0
    · subst hr; rfl
    · simp only [if_neg hr]
      rw [ih (calls + 1) (Nat.pos_of_ne_zero hr)]
      have harith : calls + 1 + r = calls + (r + 1) := by omega
      rw [harith]

/-- If the transport returns `txts i` on attempt `i` and each such text
fails to parse after stripping and fence extraction, every nonempty tail
of the loop ends with the ParseError mapping of the final attempt. -/
theorem classifyFrom_all_parse_fail (txts : Nat → String) (n : Nat) (hn : 0 < n)
    (hfail : ∀ i, i < n → isOkE (json_loads (pyFenceExtract (pyStrip (txts i)))) = false) :
    ∀ r calls, 0 < r →
      classifyFrom (fun i => TransportResult.returns (txts i)) n r calls =
        ⟨parseErrorDict (pyFenceExtract (pyStrip (txts (n - 1))))
           (jsonErrOf (pyFenceExtract (pyStrip (txts (n - 1))))),
         calls + r, Origin.parseError⟩ := by
  intro r
  induction r with
  | zero => intro calls h; exact absurd h (by omega)
  | succ r ih =>
    intro calls _
    have hlt : n - (r + 1) < n := by omega
    have hf := hfail (n - (r + 1)) hlt
    cases hj : json_loads (pyFenceExtract (pyStrip (txts (n - (r + 1))))) with
    | ok v => rw [hj] at hf; exact absurd hf (by simp [isOkE])
    | error e =>
      by_cases hr : r = 0
      · subst hr
        have he : jsonErrOf (pyFenceExtract (pyStrip (txts (n - 1)))) = e := by
          unfold jsonErrOf
          rw [show n - 1 = n - (0 + 1) from rfl, hj]
        simp [classifyFrom, hj, he]
      · simp only [classifyFrom, hj, if_neg hr]
        rw [ih (calls + 1) (Nat.pos_of_ne_zero hr)]
        have harith : calls + 1 + r = calls + (r + 1) := by omega
        rw [harith]

/-- With at least one iteration left, the loop never falls through. -/
theorem classifyFrom_no_fall (tr : Nat → TransportResult) (n : Nat) :
    ∀ r calls, 0 < r →
      (classifyFrom tr n r calls).origin ≠ Origin.fellThrough := by
  intro r
  induction r with
  | zero => intro calls h; exact absurd h (by omega)
  | succ r ih =>
    intro calls _
    cases htr : tr (n - (r + 1)) with
    | raises msg =>
      by_cases hr : r = 0
      · subst hr; simp [classifyFrom, htr]
      · simp only [classifyFrom, htr, if_neg hr]
        exact ih (calls + 1) (Nat.pos_of_ne_zero hr)
    | returns raw =>
      cases hj : json_loads (pyFenceExtract (pyStrip raw)) with
      | ok v => simp [classifyFrom, htr, hj]
      | error e =>
        by_cases hr : r = 0
        · subst hr; simp [classifyFrom, htr, hj]
        · simp only [classifyFrom, htr, hj, if_neg hr]
          exact ih (calls + 1) (Nat.pos_of_ne_zero hr)

/-! ## Claim C1 (corrected) -/

/-- C1 counterexample: with a transport that returns the text `"3"` on
every attempt (and the default three attempts), `classify_report` returns
the parsed JSON number 3, which is not a mapping and contains no
`failure_type` key — so the claim that the result always contains a
string-valued `failure_type` is false as stated. -/
theorem c1_counterexample :
    classify_report (fun _ => TransportResult.returns "3") 3 = JValue.jnum "3" ∧
    hasStringFailureType (classify_report (fun _ => TransportResult.returns "3") 3) = false :=
  ⟨rfl, rfl⟩

/-- C1 amended: for every transport behaviour (success, raising, or
returning arbitrary text) `classify_report` returns — no fault escapes —
and whenever the result is not a successfully parsed response it is a
mapping containing the key `failure_type` with a string value; a
successfully parsed response is returned as-is and need not be such a
mapping. -/
theorem c1_total_or_string (tr : Nat → TransportResult) (n : Nat) :
    (classifyRun tr n).origin = Origin.parsed ∨
    hasStringFailureType (classify_report tr n) = true :=
  classifyFrom_parsed_or_string tr n n 0

/-! ## Claim C2 (confirmed) -/

/-- C2: if the transport raises on every attempt (message `msgs i` on
attempt `i`) and `max_retries` is positive, `classify_report` invokes the
transport exactly `max_retries` times and returns
`{"failure_type": "APIError", "error": <message of the last failure>}`. -/
theorem c2_api_error_after_retries (msgs : Nat → String) (n : Nat) (h : 0 < n) :
    classifyRun (fun i => TransportResult.raises (msgs i)) n =
      ⟨apiErrorDict (msgs (n - 1)), n, Origin.apiError⟩ := by
  unfold classifyRun
  rw [classifyFrom_all_raises msgs n n 0 h]
  rw [Nat.zero_add]

theorem c2_api_error_after_retries_witness :
    classifyRun (fun _ => TransportResult.raises "boom") 2 =
      ⟨apiErrorDict "boom", 2, Origin.apiError⟩ :=
  c2_api_error_after_retries (fun _ => "boom") 2 (by decide)

/-! ## Claim C8 (confirmed) -/

/-- C8: if the attempt loop exits without returning — which happens
exactly when the attempt count is zero — `classify_report` returns
`{"failure_type": "UnknownError"}`; for every positive attempt count the
fall-through branch is never taken. -/
theorem c8_unknown_error_only_at_zero :
    (∀ tr : Nat → TransportResult,
      classify_report tr 0 = unknownErrorDict ∧
      (classifyRun tr 0).origin = Origin.fellThrough) ∧
    (∀ (tr : Nat → TransportResult) (n : Nat), 0 < n →
      (classifyRun tr n).origin ≠ Origin.fellThrough) := by
  constructor
  · intro tr; exact ⟨rfl, rfl⟩
  · intro tr n h; exact classifyFrom_no_fall tr n n 0 h

theorem c8_unknown_error_only_at_zero_witness :
    classify_report (fun _ => TransportResult.raises "x") 0 = unknownErrorDict ∧
    (classifyRun (fun _ => TransportResult.raises "x") 1).origin ≠ Origin.fellThrough :=
  ⟨(c8_unknown_error_only_at_zero.1 _).1,
   c8_unknown_error_only_at_zero.2 _ 1 (by decide)⟩

/-! ## Claim C3 (confirmed) -/

theorem lPrefix_append (n1 n2 : List Char) :
    ∀ bs, lPrefix (n1 ++ n2) bs = true → lPrefix n1 bs = true := by
  induction n1 with
  | nil => intro bs _; rfl
  | cons a as ih =>
    intro bs h
    cases bs with
    | nil => simp [lPrefix] at h
    | cons b bs' =>
      simp only [List.cons_append, lPrefix, Bool.and_eq_true] at h ⊢
      exact ⟨h.1, ih bs' h.2⟩

/-- If a text contains an extension of a needle, it contains the needle. -/
theorem lContains_append (n1 n2 : List Char) :
    ∀ hay, lContains (n1 ++ n2) hay = true → lContains n1 hay = true := by
  intro hay
  induction hay with
  | nil =>
    intro h
    simp only [lContains] at h ⊢
    exact lPrefix_append n1 n2 [] h
  | cons c rest ih =>
    intro h
    simp only [lContains, Bool.or_eq_true] at h ⊢
    cases h with
    | inl hp => exact Or.inl (lPrefix_append n1 n2 _ hp)
    | inr hc => exact Or.inr (ih hc)

/-- C3: the parse input of each attempt is the fence extraction of the
stripped response.  (a) If every attempt's text fails to parse, a positive
`max_retries` run returns `{failure_type: "ParseError", raw_response:
<last prepared text>, error: <message>}`.  (b) A text with no fence is
parsed whole (the fence extraction is the identity on it).  (c)/(d) With a
fence, with or without the `json` language tag, only the fenced content
survives the extraction. -/
theorem c3_parse_error_behaviour :
    (∀ (txts : Nat → String) (n : Nat), 0 < n →
      (∀ i, i < n → isOkE (json_loads (pyFenceExtract (pyStrip (txts i)))) = false) →
      classifyRun (fun i => TransportResult.returns (txts i)) n =
        ⟨parseErrorDict (pyFenceExtract (pyStrip (txts (n - 1))))
           (jsonErrOf (pyFenceExtract (pyStrip (txts (n - 1))))), n, Origin.parseError⟩) ∧
    (∀ t : String, lContains ("```".data) t.data = false → pyFenceExtract t = t) ∧
    pyFenceExtract "```json\nnot json\n```" = "not json" ∧
    pyFenceExtract "```\nnot json\n```" = "not json" := by
  refine ⟨?_, ?_, rfl, rfl⟩
  · intro txts n hn hfail
    unfold classifyRun
    rw [classifyFrom_all_parse_fail txts n hn hfail n 0 hn]
    rw [Nat.zero_add]
  · intro t h
    have hj : lContains ("```json".data) t.data = false := by
      cases hx : lContains ("```json".data) t.data with
      | false => rfl
      | true =>
        have hm := lContains_append ("```".data) ("json".data) t.data (by
          have hsplit : ("```json".data) = ("```".data) ++ ("json".data) := rfl
          rw [hsplit] at hx
          exact hx)
        rw [hm] at h
        simp at h
    simp [pyFenceExtract, hj, h]

theorem c3_parse_error_behaviour_witness :
    classifyRun (fun _ => TransportResult.returns "not json") 1 =
      ⟨parseErrorDict (pyFenceExtract (pyStrip "not json"))
         (jsonErrOf (pyFenceExtract (pyStrip "not json"))), 1, Origin.parseError⟩ ∧
    pyFenceExtract "plain text" = "plain text" :=
  ⟨c3_parse_error_behaviour.1 (fun _ => "not json") 1 (by decide)
     (fun i hi => by
        have h0 : i = 0 := by omega
        subst h0
        decide),
   c3_parse_error_behaviour.2.1 "plain text" (by decide)⟩

/-! ## DataFrame lemmas -/

theorem dfSetCol_absent (df : DataFrame) (name : String) (vals : List JValue)
    (h : dfHasCol df name = false) :
    dfSetCol df name vals = df ++ [(name, vals)] := by
  simp [dfSetCol, h]

theorem find?_overwrite (name : String) (vals : List JValue) :
    ∀ df : DataFrame, dfHasCol df name = true →
      List.find? (fun c => c.1 == name)
        (df.map (fun c => if c.1 == name then (name, vals) else c)) =
        some (name, vals) := by
  intro df
  induction df with
  | nil => intro h; simp [dfHasCol] at h
  | cons c rest ih =>
    intro h
    cases hc : (c.1 == name) with
    | true =>
      simp only [List.map_cons, if_pos hc, List.find?_cons]
      simp
    | false =>
      have h' : dfHasCol rest name = true := by
        simp only [dfHasCol, List.any_cons, hc, Bool.false_or] at h
        exact h
      have hif : (if (c.1 == name) = true then (name, vals) else c) = c := by
        rw [hc]
        simp
      simp only [List.map_cons, List.find?_cons]
      rw [hif, hc]
      exact ih h'

theorem find?_append_absent (name : String) (vals : List JValue) :
    ∀ df : DataFrame, dfHasCol df name = false →
      List.find? (fun c => c.1 == name) (df ++ [(name, vals)]) =
        some (name, vals) := by
  intro df
  induction df with
  | nil => simp
  | cons c rest ih =>
    intro h
    simp only [dfHasCol, List.any_cons, Bool.or_eq_false_iff] at h
    simp only [List.cons_append, List.find?_cons, h.1]
    exact ih (by simp [dfHasCol, h.2])

/-- Setting a column makes it present with exactly the given cells,
whether it previously existed (overwrite) or not (append). -/
theorem dfGetCol_setCol (df : DataFrame) (name : String) (vals : List JValue) :
    dfGetCol (dfSetCol df name vals) name = some vals := by
  unfold dfSetCol dfGetCol
  by_cases h : dfHasCol df name = true
  · rw [if_pos h, find?_overwrite name vals df h]
    rfl
  · rw [if_neg h, find?_append_absent name vals df (Bool.eq_false_iff.2 h)]
    rfl

/-! ## Claim C9 (corrected) -/

/-- C9 counterexample: a transport returning the JSON text
`{"failure_type": 7}` parses successfully, so the batch runner's derived
`failure_type` column holds the JSON number 7 for that row — the column is
not a string for every row. -/
theorem c9_counterexample :
    dfGetCol (classify_dataframe
        (fun _ _ => TransportResult.returns "\x7b\"failure_type\": 7\x7d")
        [("subject", [JValue.jstr "s"]), ("description", [JValue.jstr "d"])]
        "subject" "description" "llm_classification") "failure_type" =
      some [JValue.jnum "7"] ∧
    jIsStr (JValue.jnum "7") = false :=
  ⟨rfl, rfl⟩

/-- C9 amended: per row, the derived `failure_type` column equals the
value at key `failure_type` of the row's classification result when that
result is a mapping containing the key — whatever JSON value that is, not
necessarily a string — and equals the string `"Error"` when the result is
not a mapping or lacks the key; the batch runner stores exactly these
derived values as the `failure_type` column. -/
theorem c9_failure_type_column :
    (∀ (kvs : List (String × JValue)) (v : JValue),
      pyDictGet kvs "failure_type" = some v →
      derive_failure_type (JValue.jobj kvs) = v) ∧
    (∀ kvs : List (String × JValue),
      pyDictGet kvs "failure_type" = none →
      derive_failure_type (JValue.jobj kvs) = JValue.jstr "Error") ∧
    (∀ x : JValue, jIsDict x = false →
      derive_failure_type x = JValue.jstr "Error") ∧
    (∀ (tr : Nat → Nat → TransportResult) (df : DataFrame) (s d out : String),
      dfGetCol (classify_dataframe tr df s d out) "failure_type" =
        some ((classifyResults tr df).map derive_failure_type)) := by
  refine ⟨?_, ?_, ?_, ?_⟩
  · intro kvs v h
    simp [derive_failure_type, h]
  · intro kvs h
    simp [derive_failure_type, h]
  · intro x h
    cases x <;> simp_all [derive_failure_type, jIsDict]
  · intro tr df s d out
    unfold classify_dataframe
    exact dfGetCol_setCol _ _ _

theorem c9_failure_type_column_witness :
    derive_failure_type (JValue.jobj [("failure_type", JValue.jstr "X")]) =
      JValue.jstr "X" ∧
    derive_failure_type (JValue.jobj [("other", JValue.jstr "y")]) =
      JValue.jstr "Error" ∧
    derive_failure_type (JValue.jarr []) = JValue.jstr "Error" ∧
    dfGetCol (classify_dataframe (fun _ _ => TransportResult.raises "e") []
        "subject" "description" "llm_classification") "failure_type" =
      some [] :=
  ⟨c9_failure_type_column.1 _ _ rfl,
   c9_failure_type_column.2.1 _ rfl,
   c9_failure_type_column.2.2.1 _ rfl,
   c9_failure_type_column.2.2.2 (fun _ _ => TransportResult.raises "e") []
     "subject" "description" "llm_classification"⟩

/-! ## Claim C10 (corrected) -/

/-- A one-row input table that already has a `failure_type` column. -/
def c10df : DataFrame :=
  [("subject", [JValue.jstr "a"]), ("description", [JValue.jstr "b"]),
   ("failure_type", [JValue.jstr "old"])]

/-- C10 counterexample: on an input that already has a `failure_type`
column, `classify_dataframe` overwrites that column's values in place (the
pre-existing value `"old"` is gone) and the table grows by one column, not
two — so "exactly two columns added and every pre-existing value
unchanged" is false as stated. -/
theorem c10_counterexample :
    dfGetCol (classify_dataframe (fun _ _ => TransportResult.raises "boom")
        c10df "subject" "description" "llm_classification") "failure_type" =
      some [JValue.jstr "APIError"] ∧
    dfGetCol c10df "failure_type" = some [JValue.jstr "old"] ∧
    dfNumCols (classify_dataframe (fun _ _ => TransportResult.raises "boom")
        c10df "subject" "description" "llm_classification") =
      dfNumCols c10df + 1 :=
  ⟨rfl, rfl, rfl⟩

/-- C10 amended: `classify_dataframe` returns its input table with the
raw-classification column and the `failure_type` column set — appended
when the name is absent, overwritten in place when present.  When neither
name is among the input's columns (and the output column is not named
`failure_type`), exactly two columns are appended and every pre-existing
column and cell is unchanged. -/
theorem c10_frame (tr : Nat → Nat → TransportResult) (df : DataFrame)
    (s d out : String)
    (hout : dfHasCol df out = false)
    (hft : dfHasCol df "failure_type" = false)
    (hne : (out == "failure_type") = false) :
    classify_dataframe tr df s d out =
      df ++ [(out, classifyResults tr df),
             ("failure_type", (classifyResults tr df).map derive_failure_type)] := by
  show dfSetCol (dfSetCol df out (classifyResults tr df)) "failure_type"
      ((classifyResults tr df).map derive_failure_type) =
    df ++ [(out, classifyResults tr df),
           ("failure_type", (classifyResults tr df).map derive_failure_type)]
  rw [dfSetCol_absent df out _ hout]
  have h2 : dfHasCol (df ++ [(out, classifyResults tr df)]) "failure_type" = false := by
    simp only [dfHasCol, List.any_append, List.any_cons, List.any_nil]
    rw [show df.any (fun c => c.1 == "failure_type") = false from hft, hne]
    rfl
  rw [dfSetCol_absent _ "failure_type" _ h2]
  simp

theorem c10_frame_witness :
    classify_dataframe (fun _ _ => TransportResult.raises "e")
        [("subject", [JValue.jstr "a"])] "subject" "description"
        "llm_classification" =
      [("subject", [JValue.jstr "a"])] ++
        [("llm_classification",
          classifyResults (fun _ _ => TransportResult.raises "e")
            [("subject", [JValue.jstr "a"])]),
         ("failure_type",
          (classifyResults (fun _ _ => TransportResult.raises "e")
            [("subject", [JValue.jstr "a"])]).map derive_failure_type)] :=
  c10_frame (fun _ _ => TransportResult.raises "e")
    [("subject", [JValue.jstr "a"])] "subject" "description"
    "llm_classification" rfl rfl rfl

/-! ## Claim C4 (corrected)

Concrete service-time tables in each variant's expected layout.  `c4t2a`
and `c4t2b` differ only in the last row's end time; `c4t3a` and `c4t3b`
differ only in the second (last) row. -/

def c4t1 : String :=
  "Work Order Times\nTime In 1/5/2024 08:00 AM\nTime Out 1/5/2024 04:30 PM\n"

def c4t2a : String :=
  "Service Times\n1/2/2024 9:00 AM 10:30 AM\n1/3/2024 11:15 AM 12:45 PM\n"

def c4t2b : String :=
  "Service Times\n1/2/2024 9:00 AM 10:30 AM\n1/3/2024 11:15 AM 1:45 PM\n"

def c4t3a : String :=
  "Time In Time Out Malfunction Start Machine Release Time\n01/01/2024 08:00 01/01/2024 09:30 01/01/2024 07:15 01/01/2024 10:00\n01/02/2024 11:00 01/02/2024 12:30 01/02/2024 10:15 01/02/2024 13:00\n"

def c4t3b : String :=
  "Time In Time Out Malfunction Start Machine Release Time\n01/01/2024 08:00 01/01/2024 09:30 01/01/2024 07:15 01/01/2024 10:00\n01/09/2024 21:00 01/09/2024 22:30 01/09/2024 20:15 01/09/2024 23:00\n"

/-- C4 counterexample: on a table with two date/time rows in the third
variant's layout (`c4t3a`, whose last row ends `01/02/2024 12:30`), the
third variant's `time_out` is the first row's end `01/01/2024 09:30`, not
the last row's — so only one variant (the second), not two, takes the
first row's start and the last row's end. -/
theorem c4_counterexample :
    pyGet (RT3.extract_report_data "r.pdf" c4t3a) "time_out" =
      some "01/01/2024 09:30" ∧
    pyGet (RT3.extract_report_data "r.pdf" c4t3a) "time_in" =
      some "01/01/2024 08:00" ∧
    "01/01/2024 09:30" ≠ "01/02/2024 12:30" := by
  refine ⟨by decide, by decide, by decide⟩

/-- C4 amended: exactly one of the three variants — the second — derives
`time_in`/`time_out` from a table of date/time pairs by taking the first
row's start and the last row's end (its `time_out` follows a change in the
last row); the third variant reads all four timestamps from the first
match of a labelled four-timestamp table header, so its values ignore any
later row; the first variant reads the fields from individually labelled
`Time In`/`Time Out` fields. -/
theorem c4_time_field_derivation :
    pyGet (RT2.extract_report_data "r.pdf" c4t2a) "time_in" =
      some "1/2/2024 9:00 AM" ∧
    pyGet (RT2.extract_report_data "r.pdf" c4t2a) "time_out" =
      some "1/3/2024 12:45 PM" ∧
    pyGet (RT2.extract_report_data "r.pdf" c4t2b) "time_out" =
      some "1/3/2024 1:45 PM" ∧
    pyGet (RT3.extract_report_data "r.pdf" c4t3b) "time_in" =
      some "01/01/2024 08:00" ∧
    pyGet (RT3.extract_report_data "r.pdf" c4t3b) "time_out" =
      some "01/01/2024 09:30" ∧
    pyGet (RT1.extract_data_from_pdf c4t1) "time_in" =
      some (some "1/5/2024 08:00 AM") ∧
    pyGet (RT1.extract_data_from_pdf c4t1) "time_out" =
      some (some "1/5/2024 04:30 PM") := by
  refine ⟨by decide, by decide, by decide, by decide, by decide, by decide, by decide⟩

/-! ## Claim C6 (confirmed) -/

/-- C6: a text containing `"Work Order WO-12345"` in the first variant's
layout yields work order id `"WO-12345"` (the variant re-prefixes the
captured digits with `WO-`); the third variant's layout is
`"Work Order Number WO-12345"` and yields the same id; on texts lacking
the pattern the first variant falls back to null and the third to the
empty string. -/
theorem c6_work_order_id :
    pyGet (RT1.extract_data_from_pdf "Work Order WO-12345") "work_order_id" =
      some (some "WO-12345") ∧
    pyGet (RT1.extract_data_from_pdf "no matching content") "work_order_id" =
      some none ∧
    pyGet (RT3.extract_report_data "r.pdf" "Work Order Number WO-12345")
        "work_order_id" = some "WO-12345" ∧
    pyGet (RT3.extract_report_data "r.pdf" "no matching content")
        "work_order_id" = some "" := by
  refine ⟨by decide, by decide, by decide, by decide⟩

/-! ## Claim C5 (corrected) -/

theorem pyStrip_empty : pyStrip "" = "" := rfl

/-- C5 counterexample: in the first variant, the time and hour fields —
which are not id/metadata fields — also default to null (not to the empty
string) when their pattern does not match. -/
theorem c5_counterexample :
    pyGet (RT1.extract_data_from_pdf "x") "time_in" = some none ∧
    pyGet (RT1.extract_data_from_pdf "x") "down_time_hours" = some none := by
  refine ⟨by decide, by decide⟩

/-- C5 amended: in the first variant every pattern-derived field (id,
metadata, time and hour fields alike) defaults to null when its pattern
does not match; in the other two variants every absent field defaults to
the empty string.  Stated for any text on which the variant's patterns all
fail to match. -/
theorem c5_absent_field_defaults (text fname : String) :
    (reSearch RT1.p_work_order text = none →
     reSearch RT1.p_machine_id text = none →
     reSearch RT1.p_subject text = none →
     reSearch RT1.p_description text = none →
     reSearch RT1.p_malfunction_start text = none →
     reSearch RT1.p_machine_release text = none →
     reSearch RT1.p_time_in text = none →
     reSearch RT1.p_time_out text = none →
     reSearch RT1.p_down_time_hours text = none →
     reSearch RT1.p_site_hours text = none →
     reSearch RT1.p_travel_hours text = none →
     reSearch RT1.p_total_work_hours text = none →
     RT1.extract_data_from_pdf text =
       [("work_order_id", none), ("machine_id", none), ("subject", none),
        ("description", none), ("malfunction_start", none),
        ("machine_release", none), ("time_in", none), ("time_out", none),
        ("down_time_hours", none), ("site_hours", none),
        ("travel_hours", none), ("total_work_hours", none),
        ("report_source", some "varian")]) ∧
    (reFindall RT2.p_table text = [] →
     reSearch RT2.p_work_order text = none →
     reSearch RT2.p_machine_id text = none →
     reSearch RT2.p_subject text = none →
     reSearch RT2.p_description text = none →
     reSearch RT2.p_malfunction_start text = none →
     reSearch RT2.p_machine_release text = none →
     reSearch RT2.p_hours text = none →
     RT2.extract_report_data fname text =
       [("work_order_id", ""), ("machine_id", ""), ("subject", ""),
        ("description", ""), ("malfunction_start", ""),
        ("machine_release", ""), ("time_in", ""), ("time_out", ""),
        ("down_time_hours", ""), ("site_hours", ""),
        ("travel_hours", ""), ("total_work_hours", ""),
        ("report_source", "varian"), ("file_name", pySplitextStem fname)]) ∧
    (reSearch RT3.p_times text = none →
     reSearch RT3.p_work_order text = none →
     reSearch RT3.p_machine_id text = none →
     reSearch RT3.p_subject text = none →
     reSearch RT3.p_description text = none →
     reSearch RT3.p_hours text = none →
     RT3.extract_report_data fname text =
       [("work_order_id", ""), ("machine_id", ""), ("subject", ""),
        ("description", ""), ("malfunction_start", ""),
        ("machine_release", ""), ("time_in", ""), ("time_out", ""),
        ("down_time_hours", ""), ("site_hours", ""),
        ("travel_hours", ""), ("total_work_hours", ""),
        ("report_source", "varian"), ("file_name", pySplitextStem fname)]) := by
  refine ⟨?_, ?_, ?_⟩
  · intro h1 h2 h3 h4 h5 h6 h7 h8 h9 h10 h11 h12
    simp [RT1.extract_data_from_pdf, RT1.searchResults,
          h1, h2, h3, h4, h5, h6, h7, h8, h9, h10, h11, h12]
  · intro hfa h1 h2 h3 h4 h5 h6 h7
    simp [RT2.extract_report_data, RT2.find,
          hfa, h1, h2, h3, h4, h5, h6, h7, pyStrip_empty]
  · intro ht h1 h2 h3 h4 h5
    simp [RT3.extract_report_data, RT3.find, ht, h1, h2, h3, h4, h5]

theorem c5_absent_field_defaults_witness :
    RT1.extract_data_from_pdf "x" =
      [("work_order_id", none), ("machine_id", none), ("subject", none),
       ("description", none), ("malfunction_start", none),
       ("machine_release", none), ("time_in", none), ("time_out", none),
       ("down_time_hours", none), ("site_hours", none),
       ("travel_hours", none), ("total_work_hours", none),
       ("report_source", some "varian")] ∧
    RT2.extract_report_data "x.pdf" "x" =
      [("work_order_id", ""), ("machine_id", ""), ("subject", ""),
       ("description", ""), ("malfunction_start", ""),
       ("machine_release", ""), ("time_in", ""), ("time_out", ""),
       ("down_time_hours", ""), ("site_hours", ""),
       ("travel_hours", ""), ("total_work_hours", ""),
       ("report_source", "varian"), ("file_name", pySplitextStem "x.pdf")] ∧
    RT3.extract_report_data "x.pdf" "x" =
      [("work_order_id", ""), ("machine_id", ""), ("subject", ""),
       ("description", ""), ("malfunction_start", ""),
       ("machine_release", ""), ("time_in", ""), ("time_out", ""),
       ("down_time_hours", ""), ("site_hours", ""),
       ("travel_hours", ""), ("total_work_hours", ""),
       ("report_source", "varian"), ("file_name", pySplitextStem "x.pdf")] :=
  ⟨(c5_absent_field_defaults "x" "x.pdf").1 (by decide) (by decide) (by decide)
     (by decide) (by decide) (by decide) (by decide) (by decide) (by decide)
     (by decide) (by decide) (by decide),
   (c5_absent_field_defaults "x" "x.pdf").2.1 (by decide) (by decide) (by decide)
     (by decide) (by decide) (by decide) (by decide) (by decide),
   (c5_absent_field_defaults "x" "x.pdf").2.2 (by decide) (by decide) (by decide)
     (by decide) (by decide) (by decide)⟩

/-! ## Claim C7 (confirmed) -/

theorem map_eq_of_fn_eq {α β : Type} (f g : α → β) (h : ∀ a, f a = g a) :
    ∀ l : List α, l.map f = l.map g := by
  intro l
  induction l with
  | nil => rfl
  | cons a rest ih => simp [h a, ih]

theorem all_map_true {α β : Type} (f : α → β) (p : β → Bool)
    (h : ∀ a, p (f a) = true) :
    ∀ l : List α, (l.map f).all p = true := by
  intro l
  induction l with
  | nil => rfl
  | cons a rest ih => simp [h a, ih]

/-- C7: each batch runner produces exactly one output row per processed
input document (for the folder runners, per file whose lowercased name
ends in `.pdf`), in input order — witnessed by the `file_name` column
following the input names — and every row carries the full fixed column
set, including the constant `report_source = "varian"` and the source
file's name. -/
theorem c7_batch_rows (docs : List Doc) :
    ((RT1.process_multiple_pdfs docs).length = docs.length) ∧
    ((RT1.process_multiple_pdfs docs).map (fun r => pyGet r "file_name") =
      docs.map (fun d => some (some d.name))) ∧
    (((RT1.process_multiple_pdfs docs).all (fun r =>
        (r.map Prod.fst == report_columns) &&
        (pyGet r "report_source" == some (some "varian")))) = true) ∧
    ((RT2.extract_from_folder docs).length =
      (docs.filter (fun f => lowerEndsWithPdf f.name)).length) ∧
    ((RT2.extract_from_folder docs).map (fun r => pyGet r "file_name") =
      (docs.filter (fun f => lowerEndsWithPdf f.name)).map
        (fun d => some (pySplitextStem d.name))) ∧
    (((RT2.extract_from_folder docs).all (fun r =>
        (r.map Prod.fst == report_columns) &&
        (pyGet r "report_source" == some "varian"))) = true) ∧
    ((RT3.extract_from_folder docs).length =
      (docs.filter (fun f => lowerEndsWithPdf f.name)).length) ∧
    ((RT3.extract_from_folder docs).map (fun r => pyGet r "file_name") =
      (docs.filter (fun f => lowerEndsWithPdf f.name)).map
        (fun d => some (pySplitextStem d.name))) ∧
    (((RT3.extract_from_folder docs).all (fun r =>
        (r.map Prod.fst == report_columns) &&
        (pyGet r "report_source" == some "varian"))) = true) := by
  refine ⟨?_, ?_, ?_, ?_, ?_, ?_, ?_, ?_, ?_⟩
  · simp [RT1.process_multiple_pdfs]
  · simp only [RT1.process_multiple_pdfs, List.map_map]
    exact map_eq_of_fn_eq _ _ (fun d => rfl) docs
  · simp only [RT1.process_multiple_pdfs]
    exact all_map_true _ _ (fun d => rfl) docs
  · simp [RT2.extract_from_folder]
  · simp only [RT2.extract_from_folder, List.map_map]
    exact map_eq_of_fn_eq _ _ (fun d => rfl) _
  · simp only [RT2.extract_from_folder]
    exact all_map_true _ _ (fun d => rfl) _
  · simp [RT3.extract_from_folder]
  · simp only [RT3.extract_from_folder, List.map_map]
    exact map_eq_of_fn_eq _ _ (fun d => rfl) _
  · simp only [RT3.extract_from_folder]
    exact all_map_true _ _ (fun d => rfl) _
